import Mathlib

/-!
Verification of the ProctorVision per-frame violation-detection pipeline.

The definitions below are a shallow embedding of `src/detection.py`
(class `AttentionMonitor`) and of the `/api/detect` endpoint of
`src/backend_server.py`.  Perception collaborators (mediapipe, YOLO) are
external: the pipeline is embedded as a function of their *outputs*
(face landmark sets, hand landmark sets, object detections), exactly the
intermediate values the Python code consumes.  Python floats are
modelled as rationals (they are only scaled and compared here), machine
integers as `Nat`/`Int`, and Python's `list(set(..))` as a
first-occurrence deduplication (see `pyListSet`).
-/

namespace ProctorVision

/-- A 2-D landmark point (mediapipe normalised coordinates). -/
structure Landmark where
  x : ℚ
  y : ℚ
deriving Repr, DecidableEq

/-- One detected face: the ordered landmark list; index 1 is the nose tip
reference used by `detect_head_turn`. -/
structure FaceLandmarkSet where
  landmark : List Landmark
deriving Repr, DecidableEq

/-- One detected hand; only its presence is consumed by the pipeline. -/
structure HandLandmarkSet where
  landmark : List Landmark
deriving Repr, DecidableEq

/-- A bounding box of an object detection (coordinates unused by the filter). -/
structure Box where
  x1 : ℚ
  y1 : ℚ
  x2 : ℚ
  y2 : ℚ
deriving Repr, DecidableEq

/-- One YOLO object detection: class label, confidence, bounding box. -/
structure Detection where
  label : String
  confidence : ℚ
  box : Box
deriving Repr, DecidableEq

/-- The `prohibited_items` dict of `AttentionMonitor.detect_gadget`
(src/detection.py lines 28-46), as an association list in the dict's
insertion order (Python dicts preserve insertion order). -/
def prohibited_items : List (String × String) :=
  [("cell phone", "Mobile Phone"),
   ("laptop", "Laptop Computer"),
   ("keyboard", "External Keyboard"),
   ("tv", "TV/Monitor"),
   ("remote", "Remote Control"),
   ("mouse", "Computer Mouse"),
   ("tablet", "Tablet Device"),
   ("book", "Book/Notes"),
   ("bottle", "Water Bottle"),
   ("cup", "Cup/Mug"),
   ("smartphone", "Smartphone"),
   ("calculator", "Calculator"),
   ("headphones", "Headphones/Earphones"),
   ("microphone", "Microphone"),
   ("camera", "Camera Device"),
   ("watch", "Smart Watch"),
   ("glasses", "Smart Glasses")]

/-- Contiguous-sublist test on character lists (an empty pattern matches),
the semantics of Python's `pat in s` for strings. -/
def infixCheck : List Char → List Char → Bool
  | pat, [] => pat.isEmpty
  | pat, c :: rest => pat.isPrefixOf (c :: rest) || infixCheck pat rest

/-- Python's substring operator `pat in s`. -/
def strContains (s pat : String) : Bool :=
  infixCheck pat.toList s.toList

/-- ASCII lowercasing, the behaviour of Python's `str.lower` on the ASCII
labels produced by the YOLO class list. -/
def strLower (s : String) : String := String.mk (s.data.map Char.toLower)

/-- One insertion into the dedup accumulator: keep the list unchanged if
the element is already present, else append it. -/
def dedupStep (acc : List String) (x : String) : List String :=
  if acc.contains x then acc else acc ++ [x]

/-- Models Python's `list(set(xs))` on strings: the distinct elements of
`xs`.  CPython realises the set in hash order; this embedding realises it
in first-occurrence order, a deterministic refinement with the same
elements and the same absence of duplicates. -/
def pyListSet (xs : List String) : List String :=
  xs.foldl dedupStep []

/-- Emission of a catalog lookup result: the display name when an entry
was found, nothing otherwise. -/
def emitFound : Option (String × String) → List String
  | some kv => [kv.2]
  | none => []

/-- The first (substring-match) emission path of `detect_gadget`
(src/detection.py lines 54-57): scan the catalog in order, emit the
display name of the first key contained in the lowercased label, stop. -/
def substrMatch (label : String) : List String :=
  emitFound (prohibited_items.find? (fun kv => strContains (strLower label) kv.1))

/-- The second (exact-key) emission path of `detect_gadget`
(src/detection.py lines 60-61): `if label in prohibited_items:
gadgets.append(prohibited_items[label])` on the raw label. -/
def exactMatch (label : String) : List String :=
  emitFound (prohibited_items.find? (fun kv => kv.1 == label))

/-- Per-detection contribution of the `detect_gadget` loop body:
substring path then exact path, in source order. -/
def detectionGadgets (label : String) : List String :=
  substrMatch label ++ exactMatch label

/-- The method `AttentionMonitor.detect_gadget` (src/detection.py lines 24-63) as a
function of the YOLO detections for the frame: accumulate both emission
paths per detection, then `list(set(gadgets))`. -/
def detect_gadget (boxes : List Detection) : List String :=
  pyListSet (boxes.flatMap (fun b => detectionGadgets b.label))

/-- The method `AttentionMonitor.detect_head_turn` (src/detection.py lines 65-75):
nose landmark index 1, scaled by the frame width, against a 60-pixel
deadband around `w // 2`. -/
def detect_head_turn (face_landmarks : FaceLandmarkSet) (w : ℕ) : String :=
  let nose := face_landmarks.landmark.getD 1 ⟨0, 0⟩
  let nose_x : ℚ := nose.x * w
  let center_x : ℚ := ((w / 2 : ℕ) : ℚ)
  if nose_x < center_x - 60 then "Looking Left"
  else if nose_x > center_x + 60 then "Looking Right"
  else "Looking Forward"

/-- The head-status loop of `process_frame` (src/detection.py lines
83-86): start from "No Face Detected" and overwrite with the
classification of each face landmark set in turn (mediapipe's `None`
is the empty list). -/
def headStatusOf (faces : List FaceLandmarkSet) (w : ℕ) : String :=
  faces.foldl (fun _ f => detect_head_turn f w) "No Face Detected"

/-- Warning text for an absent face (src/detection.py line 100). -/
def faceNotVisibleMsg : String :=
  "⚠️ FACE NOT VISIBLE - Position yourself in camera view"

/-- Warning text for a head turned left (src/detection.py line 102). -/
def headLeftMsg : String :=
  "👈 HEAD TURNED LEFT - Look straight at the camera"

/-- Warning text for a head turned right (src/detection.py line 104). -/
def headRightMsg : String :=
  "👉 HEAD TURNED RIGHT - Look straight at the camera"

/-- Warning text for zero hands (src/detection.py line 108). -/
def noHandsMsg : String :=
  "✋ NO HANDS VISIBLE - Keep both hands on the desk"

/-- Warning text for exactly one hand (src/detection.py line 110). -/
def oneHandMsg : String :=
  "🖐️ ONLY ONE HAND VISIBLE - Show both hands on desk"

/-- The head-related warning block of `process_frame` (src/detection.py
lines 99-104): the if/elif chain appends at most one warning. -/
def headWarnings (head_status : String) : List String :=
  if head_status == "No Face Detected" then [faceNotVisibleMsg]
  else if head_status == "Looking Left" then [headLeftMsg]
  else if head_status == "Looking Right" then [headRightMsg]
  else []

/-- The hand-related warning block of `process_frame` (src/detection.py
lines 107-110): only counts 0 and 1 warn; counts of 2 or more do not. -/
def handWarnings (hand_count : ℕ) : List String :=
  if hand_count == 0 then [noHandsMsg]
  else if hand_count == 1 then [oneHandMsg]
  else []

/-- The f-string of the gadget warning (src/detection.py line 114). -/
def gadgetWarning (gadget : String) : String :=
  "📱 PROHIBITED DEVICE: " ++ gadget ++ " - Remove immediately"

/-- The result tuple of `AttentionMonitor.process_frame`. -/
structure DetectionResult where
  warnings : List String
  head_status : String
  hand_count : ℕ
  gadgets : List String
deriving Repr, DecidableEq

/-- The method `AttentionMonitor.process_frame` (src/detection.py lines 77-116) as a
function of the perception outputs for one frame: head status from the
face landmark sets, hand count from the hand landmark sets, gadgets from
the detections, and the warning list built head-block, hand-block, then
one warning per gadget in the gadget list's order. -/
def process_frame (faces : List FaceLandmarkSet) (hands : List HandLandmarkSet)
    (boxes : List Detection) (w : ℕ) : DetectionResult :=
  let head_status := headStatusOf faces w
  let hand_count := hands.length
  let gadgets := detect_gadget boxes
  let warnings :=
    headWarnings head_status ++ handWarnings hand_count ++ gadgets.map gadgetWarning
  ⟨warnings, head_status, hand_count, gadgets⟩

/-- The evidence trigger of the `/api/detect` endpoint
(src/backend_server.py line 288): `if warnings or gadgets:` guards the
screenshot write. -/
def evidence_required (warnings gadgets : List String) : Bool :=
  !warnings.isEmpty || !gadgets.isEmpty

/-- The screenshot guard of `AttentionMonitor.run` (src/detection.py
lines 154-155): `if gadgets: self.save_screenshot(frame)`. -/
def run_saves_screenshot (gadgets : List String) : Bool :=
  !gadgets.isEmpty

/-- The compliance verdict of `AttentionMonitor.run` (src/detection.py
line 136): green iff looking forward, two hands, no gadgets. -/
def compliant (head_status : String) (hand_count : ℕ) (gadgets : List String) : Bool :=
  head_status == "Looking Forward" && hand_count == 2 && gadgets.isEmpty

/-- FastAPI's HTTPException, reduced to the two fields the endpoint sets. -/
structure HTTPException where
  status_code : ℕ
  detail : String
deriving Repr, DecidableEq

/-- A successfully decoded frame, represented by the perception outputs
the pipeline extracts from it (the embedding's stand-in for the cv2
image handed to `monitor.process_frame`). -/
structure DecodedFrame where
  faces : List FaceLandmarkSet
  hands : List HandLandmarkSet
  boxes : List Detection
  w : ℕ
deriving Repr, DecidableEq

/-- The success payload of `/api/detect` (src/backend_server.py lines
293-300): exactly the six fields of the returned dict. -/
structure ApiDetectResponse where
  warnings : List String
  head_status : String
  hand_count : ℕ
  gadgets : List String
  timestamp : String
  screenshot_saved : Bool
deriving Repr, DecidableEq

/-- The `/api/detect` handler `detect_violations` (src/backend_server.py
lines 262-300) on the DETECTION_AVAILABLE path.  `cv2.imdecode` failure
is the `none` case (HTTP 400, nothing written).  On success the frame is
processed, the screenshot is written iff `warnings or gadgets`, and the
response carries `screenshot_saved = (screenshot_path is not None)`.
The returned Bool records whether a screenshot file was written. -/
def detect_violations (decoded : Option DecodedFrame) (now : String) :
    Except HTTPException ApiDetectResponse × Bool :=
  match decoded with
  | none => (Except.error ⟨400, "Invalid image format"⟩, false)
  | some fr =>
    let r := process_frame fr.faces fr.hands fr.boxes fr.w
    let wrote := evidence_required r.warnings r.gadgets
    (Except.ok ⟨r.warnings, r.head_status, r.hand_count, r.gadgets, now, wrote⟩, wrote)

/-- A face landmark set whose nose reference (index 1) sits at normalised
x-coordinate `x`; used for concrete boundary instances. -/
def faceAt (x : ℚ) : FaceLandmarkSet :=
  ⟨[⟨0, 0⟩, ⟨x, 1/2⟩]⟩

/-! ### Helper lemmas -/

theorem process_frame_warnings (faces : List FaceLandmarkSet) (hands : List HandLandmarkSet)
    (boxes : List Detection) (w : ℕ) :
    (process_frame faces hands boxes w).warnings =
      headWarnings (headStatusOf faces w) ++ handWarnings hands.length ++
        (detect_gadget boxes).map gadgetWarning := rfl

theorem process_frame_head (faces : List FaceLandmarkSet) (hands : List HandLandmarkSet)
    (boxes : List Detection) (w : ℕ) :
    (process_frame faces hands boxes w).head_status = headStatusOf faces w := rfl

theorem process_frame_hand (faces : List FaceLandmarkSet) (hands : List HandLandmarkSet)
    (boxes : List Detection) (w : ℕ) :
    (process_frame faces hands boxes w).hand_count = hands.length := rfl

theorem process_frame_gadgets (faces : List FaceLandmarkSet) (hands : List HandLandmarkSet)
    (boxes : List Detection) (w : ℕ) :
    (process_frame faces hands boxes w).gadgets = detect_gadget boxes := rfl

theorem detect_head_turn_cases (f : FaceLandmarkSet) (w : ℕ) :
    detect_head_turn f w = "Looking Left" ∨ detect_head_turn f w = "Looking Right" ∨
      detect_head_turn f w = "Looking Forward" := by
  simp only [detect_head_turn]
  split_ifs <;> simp

theorem foldl_overwrite {α β : Type} (g : α → β) (l : List α) (b b' : β) (h : l ≠ []) :
    l.foldl (fun _ a => g a) b = l.foldl (fun _ a => g a) b' := by
  cases l with
  | nil => exact absurd rfl h
  | cons a t => rfl

theorem headStatusOf_singleton (a : FaceLandmarkSet) (w : ℕ) :
    headStatusOf [a] w = detect_head_turn a w := rfl

theorem headStatusOf_cons_cons (a b : FaceLandmarkSet) (t : List FaceLandmarkSet) (w : ℕ) :
    headStatusOf (a :: b :: t) w = headStatusOf (b :: t) w := by
  show List.foldl (fun _ f => detect_head_turn f w) (detect_head_turn a w) (b :: t) =
    List.foldl (fun _ f => detect_head_turn f w) "No Face Detected" (b :: t)
  exact foldl_overwrite (fun f => detect_head_turn f w) (b :: t) _ _ (by simp)

theorem headStatusOf_eq_last (faces : List FaceLandmarkSet) (f : FaceLandmarkSet) (w : ℕ)
    (h : faces.getLast? = some f) :
    headStatusOf faces w = detect_head_turn f w := by
  induction faces with
  | nil => simp at h
  | cons a t ih =>
    cases t with
    | nil =>
      simp [List.getLast?] at h
      rw [h, headStatusOf_singleton]
    | cons b t2 =>
      rw [headStatusOf_cons_cons]
      exact ih (by simpa [List.getLast?_cons_cons] using h)

theorem headStatusOf_cases (faces : List FaceLandmarkSet) (w : ℕ) :
    headStatusOf faces w = "No Face Detected" ∨ headStatusOf faces w = "Looking Left" ∨
      headStatusOf faces w = "Looking Right" ∨ headStatusOf faces w = "Looking Forward" := by
  induction faces with
  | nil => left; rfl
  | cons a t ih =>
    cases t with
    | nil =>
      rw [headStatusOf_singleton]
      right
      exact detect_head_turn_cases a w
    | cons b t2 =>
      rw [headStatusOf_cons_cons]
      exact ih

theorem headWarnings_length (s : String) : (headWarnings s).length ≤ 1 := by
  unfold headWarnings
  split_ifs <;> simp

theorem handWarnings_length (n : ℕ) : (handWarnings n).length ≤ 1 := by
  unfold handWarnings
  split_ifs <;> simp

theorem headWarnings_mem (s x : String) (h : x ∈ headWarnings s) :
    x = faceNotVisibleMsg ∨ x = headLeftMsg ∨ x = headRightMsg := by
  unfold headWarnings at h
  split_ifs at h <;> simp_all

theorem handWarnings_mem (n : ℕ) (x : String) (h : x ∈ handWarnings n) :
    x = noHandsMsg ∨ x = oneHandMsg := by
  unfold handWarnings at h
  split_ifs at h <;> simp_all

theorem handWarnings_zero : handWarnings 0 = [noHandsMsg] := rfl

theorem handWarnings_one : handWarnings 1 = [oneHandMsg] := rfl

theorem handWarnings_two_le (n : ℕ) (h : 2 ≤ n) : handWarnings n = [] := by
  unfold handWarnings
  have h0 : (n == 0) = false := by simp only [beq_eq_false_iff_ne, ne_eq]; omega
  have h1 : (n == 1) = false := by simp only [beq_eq_false_iff_ne, ne_eq]; omega
  simp [h0, h1]

theorem contains_iff (l : List String) (x : String) : l.contains x = true ↔ x ∈ l := by
  simp [List.contains, List.elem_iff]

theorem dedupStep_mem (acc : List String) (x y : String) :
    y ∈ dedupStep acc x ↔ y ∈ acc ∨ y = x := by
  unfold dedupStep
  split_ifs with hc
  · rw [contains_iff] at hc
    constructor
    · exact Or.inl
    · rintro (h | rfl) <;> [exact h; exact hc]
  · simp

theorem foldl_dedupStep_mem (xs : List String) (acc : List String) (y : String) :
    y ∈ xs.foldl dedupStep acc ↔ y ∈ acc ∨ y ∈ xs := by
  induction xs generalizing acc with
  | nil => simp
  | cons x t ih =>
    rw [List.foldl_cons, ih, dedupStep_mem]
    simp [or_assoc]

theorem mem_pyListSet (xs : List String) (y : String) : y ∈ pyListSet xs ↔ y ∈ xs := by
  rw [pyListSet, foldl_dedupStep_mem]
  simp

theorem dedupStep_nodup (acc : List String) (x : String) (h : acc.Nodup) :
    (dedupStep acc x).Nodup := by
  unfold dedupStep
  split_ifs with hc
  · exact h
  · have hx : x ∉ acc := fun hm => hc ((contains_iff acc x).mpr hm)
    rw [List.nodup_append]
    refine ⟨h, List.nodup_singleton x, ?_⟩
    intro a ha hb
    simp at hb
    subst hb
    exact hx ha

theorem foldl_dedupStep_nodup (xs : List String) (acc : List String) (h : acc.Nodup) :
    (xs.foldl dedupStep acc).Nodup := by
  induction xs generalizing acc with
  | nil => exact h
  | cons x t ih => exact ih _ (dedupStep_nodup _ _ h)

theorem pyListSet_nodup (xs : List String) : (pyListSet xs).Nodup :=
  foldl_dedupStep_nodup xs [] List.nodup_nil

theorem dedupStep_contains_self (acc : List String) (x : String) :
    (dedupStep acc x).contains x = true := by
  unfold dedupStep
  split_ifs with hc
  · exact hc
  · rw [contains_iff]
    simp

theorem dedupStep_of_contains (l : List String) (x : String) (h : l.contains x = true) :
    dedupStep l x = l := by
  unfold dedupStep
  rw [h]
  simp

theorem dedupStep_idem (acc : List String) (x : String) :
    dedupStep (dedupStep acc x) x = dedupStep acc x :=
  dedupStep_of_contains _ _ (dedupStep_contains_self acc x)

set_option maxRecDepth 4000 in
/-- Every catalog key, fed back as a label, is found by the
substring scan at its own entry: no earlier key is a substring of a
later key, checked over the concrete catalog. -/
theorem catalog_substr_self :
    ∀ kv ∈ prohibited_items,
      prohibited_items.find? (fun kv2 => strContains (strLower kv.1) kv2.1) = some kv := by
  decide

set_option maxRecDepth 4000 in
/-- No canonical display name yields a gadget warning equal to either
hand warning, checked over the concrete catalog. -/
theorem catalog_gadgetWarning_ne_hand :
    ∀ kv ∈ prohibited_items,
      ¬(gadgetWarning kv.2 = noHandsMsg) ∧ ¬(gadgetWarning kv.2 = oneHandMsg) := by
  decide

theorem exact_substr_agree (label : String) (kv : String × String)
    (h : prohibited_items.find? (fun kv2 => kv2.1 == label) = some kv) :
    substrMatch label = [kv.2] := by
  have hmem : kv ∈ prohibited_items := List.mem_of_find?_eq_some h
  have hlab : kv.1 = label := by
    have hp := List.find?_some h
    simpa using hp
  subst hlab
  unfold substrMatch
  rw [catalog_substr_self kv hmem]
  rfl

theorem foldl_detectionGadgets (label : String) (acc : List String) :
    List.foldl dedupStep acc (detectionGadgets label) =
      List.foldl dedupStep acc (substrMatch label) := by
  cases hfind : prohibited_items.find? (fun kv => kv.1 == label) with
  | none =>
    have he : exactMatch label = [] := by unfold exactMatch; rw [hfind]; rfl
    rw [detectionGadgets, he, List.append_nil]
  | some kv =>
    have he : exactMatch label = [kv.2] := by unfold exactMatch; rw [hfind]; rfl
    have hs := exact_substr_agree label kv hfind
    rw [detectionGadgets, he, hs]
    show List.foldl dedupStep acc [kv.2, kv.2] = List.foldl dedupStep acc [kv.2]
    simp only [List.foldl_cons, List.foldl_nil, dedupStep_idem]

/-- Dropping the redundant exact-key emission path does not change the
deduplicated gadget set. -/
theorem detect_gadget_substr_only (boxes : List Detection) :
    detect_gadget boxes = pyListSet (boxes.flatMap (fun b => substrMatch b.label)) := by
  suffices h : ∀ acc : List String,
      List.foldl dedupStep acc (boxes.flatMap (fun b => detectionGadgets b.label)) =
        List.foldl dedupStep acc (boxes.flatMap (fun b => substrMatch b.label)) from h []
  induction boxes with
  | nil => intro acc; rfl
  | cons b t ih =>
    intro acc
    rw [List.flatMap_cons, List.flatMap_cons, List.foldl_append, List.foldl_append,
      foldl_detectionGadgets]
    exact ih _

theorem emitFound_mem (o : Option (String × String)) (x : String) (h : x ∈ emitFound o) :
    ∃ kv, o = some kv ∧ kv.2 = x := by
  cases o with
  | none => simp [emitFound] at h
  | some kv =>
    simp [emitFound] at h
    exact ⟨kv, rfl, h.symm⟩

theorem detectionGadgets_mem (label x : String) (h : x ∈ detectionGadgets label) :
    ∃ kv ∈ prohibited_items, kv.2 = x := by
  rcases List.mem_append.mp h with h' | h'
  · obtain ⟨kv, hfind, hx⟩ := emitFound_mem _ _ h'
    exact ⟨kv, List.mem_of_find?_eq_some hfind, hx⟩
  · obtain ⟨kv, hfind, hx⟩ := emitFound_mem _ _ h'
    exact ⟨kv, List.mem_of_find?_eq_some hfind, hx⟩

/-- Every element of the gadget set is a canonical display name of the
catalog. -/
theorem mem_detect_gadget (boxes : List Detection) (x : String)
    (h : x ∈ detect_gadget boxes) :
    ∃ kv ∈ prohibited_items, kv.2 = x := by
  rw [detect_gadget, mem_pyListSet] at h
  obtain ⟨b, _, hb⟩ := List.mem_flatMap.mp h
  exact detectionGadgets_mem b.label x hb

/-- Flattening per-detection contributions only looks at the labels. -/
theorem flatMap_label (boxes : List Detection) (f : String → List String) :
    boxes.flatMap (fun b => f b.label) = (boxes.map Detection.label).flatMap f := by
  induction boxes with
  | nil => rfl
  | cons b t ih => simp [List.flatMap_cons, ih]

theorem detect_head_turn_left_iff (f : FaceLandmarkSet) (w : ℕ) :
    detect_head_turn f w = "Looking Left" ↔
      (f.landmark.getD 1 ⟨0, 0⟩).x * w < ((w / 2 : ℕ) : ℚ) - 60 := by
  simp only [detect_head_turn]
  split_ifs with h1 h2
  · exact iff_of_true rfl h1
  · exact ⟨fun h => absurd h (by decide), fun h => absurd h h1⟩
  · exact ⟨fun h => absurd h (by decide), fun h => absurd h h1⟩

theorem detect_head_turn_right_iff (f : FaceLandmarkSet) (w : ℕ) :
    detect_head_turn f w = "Looking Right" ↔
      ((w / 2 : ℕ) : ℚ) + 60 < (f.landmark.getD 1 ⟨0, 0⟩).x * w := by
  simp only [detect_head_turn]
  split_ifs with h1 h2
  · exact ⟨fun h => absurd h (by decide), fun h => by linarith⟩
  · exact iff_of_true rfl h2
  · exact ⟨fun h => absurd h (by decide), fun h => absurd h h2⟩

theorem detect_head_turn_forward_iff (f : FaceLandmarkSet) (w : ℕ) :
    detect_head_turn f w = "Looking Forward" ↔
      (((w / 2 : ℕ) : ℚ) - 60 ≤ (f.landmark.getD 1 ⟨0, 0⟩).x * w ∧
        (f.landmark.getD 1 ⟨0, 0⟩).x * w ≤ ((w / 2 : ℕ) : ℚ) + 60) := by
  simp only [detect_head_turn]
  split_ifs with h1 h2
  · exact ⟨fun h => absurd h (by decide), fun h => by linarith [h.1]⟩
  · exact ⟨fun h => absurd h (by decide), fun h => by linarith [h.2]⟩
  · exact ⟨fun _ => ⟨by linarith [not_lt.mp h1], by linarith [not_lt.mp h2]⟩, fun _ => rfl⟩

theorem headTurn_640_259 : detect_head_turn (faceAt (259/640)) 640 = "Looking Left" := by
  rw [detect_head_turn_left_iff]
  simp only [faceAt, List.getD_cons_succ, List.getD_cons_zero]
  norm_num

theorem headTurn_640_260 : detect_head_turn (faceAt (260/640)) 640 = "Looking Forward" := by
  rw [detect_head_turn_forward_iff]
  simp only [faceAt, List.getD_cons_succ, List.getD_cons_zero]
  norm_num

theorem headTurn_640_380 : detect_head_turn (faceAt (380/640)) 640 = "Looking Forward" := by
  rw [detect_head_turn_forward_iff]
  simp only [faceAt, List.getD_cons_succ, List.getD_cons_zero]
  norm_num

theorem headTurn_640_381 : detect_head_turn (faceAt (381/640)) 640 = "Looking Right" := by
  rw [detect_head_turn_right_iff]
  simp only [faceAt, List.getD_cons_succ, List.getD_cons_zero]
  norm_num

theorem headTurn_640_320 : detect_head_turn (faceAt (320/640)) 640 = "Looking Forward" := by
  rw [detect_head_turn_forward_iff]
  simp only [faceAt, List.getD_cons_succ, List.getD_cons_zero]
  norm_num

theorem evidence_required_iff (ws gs : List String) :
    evidence_required ws gs = true ↔ (ws ≠ [] ∨ gs ≠ []) := by
  simp [evidence_required]

theorem headWarnings_noface : headWarnings "No Face Detected" = [faceNotVisibleMsg] := by
  decide

theorem headWarnings_left : headWarnings "Looking Left" = [headLeftMsg] := by
  decide

theorem headWarnings_right : headWarnings "Looking Right" = [headRightMsg] := by
  decide

theorem headWarnings_forward : headWarnings "Looking Forward" = [] := by
  decide

theorem handWarnings_two : handWarnings 2 = [] := rfl

set_option maxRecDepth 4000 in
/-- Every catalog key, looked up exactly, is found at its own entry:
the catalog keys are pairwise distinct, checked concretely. -/
theorem catalog_exact_self :
    ∀ kv ∈ prohibited_items,
      prohibited_items.find? (fun kv2 => kv2.1 == kv.1) = some kv := by
  decide

theorem msg_not_in_head (s m : String)
    (hm : ¬(m = faceNotVisibleMsg) ∧ ¬(m = headLeftMsg) ∧ ¬(m = headRightMsg)) :
    m ∉ headWarnings s := by
  intro h
  rcases headWarnings_mem s m h with h' | h' | h'
  exacts [hm.1 h', hm.2.1 h', hm.2.2 h']

theorem msg_not_in_gadget (boxes : List Detection) (m : String)
    (hm : ∀ kv ∈ prohibited_items, ¬(gadgetWarning kv.2 = m)) :
    m ∉ (detect_gadget boxes).map gadgetWarning := by
  intro h
  obtain ⟨g, hg, heq⟩ := List.mem_map.mp h
  obtain ⟨kv, hkv, hk2⟩ := mem_detect_gadget boxes g hg
  rw [← hk2] at heq
  exact hm kv hkv heq

/-! ### Claim theorems -/

/-- C3: the Head Orientation Classifier returns Left exactly when the
nose reference x-coordinate scaled into pixels is strictly below
(w // 2) - 60, Right exactly when it is strictly above (w // 2) + 60,
and Forward otherwise; for w = 640, nose_x = 259 yields Left, 260 and
380 yield Forward, and 381 yields Right. -/
theorem C3_head_orientation (f : FaceLandmarkSet) (w : ℕ) :
    (detect_head_turn f w = "Looking Left" ↔
      (f.landmark.getD 1 ⟨0, 0⟩).x * w < ((w / 2 : ℕ) : ℚ) - 60) ∧
    (detect_head_turn f w = "Looking Right" ↔
      ((w / 2 : ℕ) : ℚ) + 60 < (f.landmark.getD 1 ⟨0, 0⟩).x * w) ∧
    (detect_head_turn f w = "Looking Forward" ↔
      (((w / 2 : ℕ) : ℚ) - 60 ≤ (f.landmark.getD 1 ⟨0, 0⟩).x * w ∧
        (f.landmark.getD 1 ⟨0, 0⟩).x * w ≤ ((w / 2 : ℕ) : ℚ) + 60)) ∧
    detect_head_turn (faceAt (259/640)) 640 = "Looking Left" ∧
    detect_head_turn (faceAt (260/640)) 640 = "Looking Forward" ∧
    detect_head_turn (faceAt (380/640)) 640 = "Looking Forward" ∧
    detect_head_turn (faceAt (381/640)) 640 = "Looking Right" :=
  ⟨detect_head_turn_left_iff f w, detect_head_turn_right_iff f w,
    detect_head_turn_forward_iff f w, headTurn_640_259, headTurn_640_260,
    headTurn_640_380, headTurn_640_381⟩

/-- C6: when two or more face landmark sets are present, the reported
head_status is exactly the classification of the last one; the earlier
sets are processed but overwritten. -/
theorem C6_last_face_determines (faces : List FaceLandmarkSet)
    (hands : List HandLandmarkSet) (boxes : List Detection) (w : ℕ)
    (f : FaceLandmarkSet) (_hlen : 2 ≤ faces.length)
    (hlast : faces.getLast? = some f) :
    (process_frame faces hands boxes w).head_status = detect_head_turn f w := by
  rw [process_frame_head]
  exact headStatusOf_eq_last faces f w hlast

theorem C6_last_face_determines_witness :
    (process_frame [faceAt (100/640), faceAt (320/640)] [] [] 640).head_status =
      detect_head_turn (faceAt (320/640)) 640 :=
  C6_last_face_determines _ _ _ _ _ (by simp) rfl

/-- C9: the pipeline is a pure, deterministic function of the
intermediate perception inputs: identical inputs yield identical
warnings, head_status, hand_count, gadgets, and evidence_required. -/
theorem C9_pipeline_deterministic (faces faces' : List FaceLandmarkSet)
    (hands hands' : List HandLandmarkSet) (boxes boxes' : List Detection)
    (w w' : ℕ) (hf : faces = faces') (hh : hands = hands')
    (hb : boxes = boxes') (hw : w = w') :
    process_frame faces hands boxes w = process_frame faces' hands' boxes' w' ∧
    (process_frame faces hands boxes w).warnings =
      (process_frame faces' hands' boxes' w').warnings ∧
    (process_frame faces hands boxes w).head_status =
      (process_frame faces' hands' boxes' w').head_status ∧
    (process_frame faces hands boxes w).hand_count =
      (process_frame faces' hands' boxes' w').hand_count ∧
    (process_frame faces hands boxes w).gadgets =
      (process_frame faces' hands' boxes' w').gadgets ∧
    evidence_required (process_frame faces hands boxes w).warnings
        (process_frame faces hands boxes w).gadgets =
      evidence_required (process_frame faces' hands' boxes' w').warnings
        (process_frame faces' hands' boxes' w').gadgets := by
  subst hf
  subst hh
  subst hb
  subst hw
  exact ⟨rfl, rfl, rfl, rfl, rfl, rfl⟩

theorem C9_pipeline_deterministic_witness :
    process_frame [faceAt (320/640)] [] [] 640 =
      process_frame [faceAt (320/640)] [] [] 640 :=
  (C9_pipeline_deterministic [faceAt (320/640)] [faceAt (320/640)] [] [] [] []
    640 640 rfl rfl rfl rfl).1

/-- C2: the warnings list is always the head warning block (at most one
entry), then the hand warning block (at most one entry), then one
prohibited-device warning per gadget in the order the Gadget Filter
produced the gadget list — never reordered. -/
theorem C2_warning_order (faces : List FaceLandmarkSet)
    (hands : List HandLandmarkSet) (boxes : List Detection) (w : ℕ) :
    ∃ headBlock handBlock : List String,
      (process_frame faces hands boxes w).warnings =
        headBlock ++ handBlock ++
          (process_frame faces hands boxes w).gadgets.map gadgetWarning ∧
      headBlock = headWarnings (process_frame faces hands boxes w).head_status ∧
      handBlock = handWarnings (process_frame faces hands boxes w).hand_count ∧
      headBlock.length ≤ 1 ∧ handBlock.length ≤ 1 :=
  ⟨_, _, rfl, rfl, rfl, headWarnings_length _, handWarnings_length _⟩

/-- C10: on the detection-available path, an undecodable upload yields
HTTP 400 with detail "Invalid image format" and no screenshot write; a
decodable upload yields the six-field record whose screenshot_saved
flag is true exactly when a violation screenshot was written. -/
theorem C10_api_detect (d : DecodedFrame) (now : String) :
    detect_violations none now = (Except.error ⟨400, "Invalid image format"⟩, false) ∧
    (∃ resp wrote, detect_violations (some d) now = (Except.ok resp, wrote) ∧
      resp.screenshot_saved = wrote ∧
      wrote = evidence_required (process_frame d.faces d.hands d.boxes d.w).warnings
        (process_frame d.faces d.hands d.boxes d.w).gadgets ∧
      resp.warnings = (process_frame d.faces d.hands d.boxes d.w).warnings ∧
      resp.head_status = (process_frame d.faces d.hands d.boxes d.w).head_status ∧
      resp.hand_count = (process_frame d.faces d.hands d.boxes d.w).hand_count ∧
      resp.gadgets = (process_frame d.faces d.hands d.boxes d.w).gadgets ∧
      resp.timestamp = now) :=
  ⟨rfl, ⟨_, _, rfl, rfl, rfl, rfl, rfl, rfl, rfl, rfl⟩⟩

/-- C1: the evidence trigger fires iff the warnings list or the gadget
set is non-empty; a non-empty gadget set always implies a non-empty
warnings list, so the condition collapses to "warnings non-empty"; and
each single non-compliant signal (non-forward head status, 0 or 1
hands, any gadget) suffices to require evidence capture. -/
theorem C1_evidence_trigger (faces : List FaceLandmarkSet)
    (hands : List HandLandmarkSet) (boxes : List Detection) (w : ℕ) :
    (evidence_required (process_frame faces hands boxes w).warnings
        (process_frame faces hands boxes w).gadgets = true ↔
      ((process_frame faces hands boxes w).warnings ≠ [] ∨
        (process_frame faces hands boxes w).gadgets ≠ [])) ∧
    ((process_frame faces hands boxes w).gadgets ≠ [] →
      (process_frame faces hands boxes w).warnings ≠ []) ∧
    (evidence_required (process_frame faces hands boxes w).warnings
        (process_frame faces hands boxes w).gadgets = true ↔
      (process_frame faces hands boxes w).warnings ≠ []) ∧
    ((process_frame faces hands boxes w).head_status ≠ "Looking Forward" →
      evidence_required (process_frame faces hands boxes w).warnings
        (process_frame faces hands boxes w).gadgets = true) ∧
    ((process_frame faces hands boxes w).hand_count = 0 ∨
        (process_frame faces hands boxes w).hand_count = 1 →
      evidence_required (process_frame faces hands boxes w).warnings
        (process_frame faces hands boxes w).gadgets = true) ∧
    ((process_frame faces hands boxes w).gadgets ≠ [] →
      evidence_required (process_frame faces hands boxes w).warnings
        (process_frame faces hands boxes w).gadgets = true) := by
  have hwg : (process_frame faces hands boxes w).gadgets ≠ [] →
      (process_frame faces hands boxes w).warnings ≠ [] := by
    intro hg hw
    rw [process_frame_warnings] at hw
    rw [process_frame_gadgets] at hg
    simp only [List.append_eq_nil, List.map_eq_nil_iff] at hw
    exact hg hw.2
  have hiff := evidence_required_iff (process_frame faces hands boxes w).warnings
    (process_frame faces hands boxes w).gadgets
  refine ⟨hiff, hwg, ?_, ?_, ?_, ?_⟩
  · rw [hiff]
    constructor
    · rintro (h | h)
      · exact h
      · exact hwg h
    · exact Or.inl
  · intro hh
    rw [hiff]
    left
    rw [process_frame_head] at hh
    rw [process_frame_warnings]
    rcases headStatusOf_cases faces w with h' | h' | h' | h'
    · rw [h', headWarnings_noface]
      simp
    · rw [h', headWarnings_left]
      simp
    · rw [h', headWarnings_right]
      simp
    · exact absurd h' hh
  · intro hc
    rw [hiff]
    left
    rw [process_frame_warnings]
    rw [process_frame_hand] at hc
    rcases hc with h0 | h1
    · rw [h0, handWarnings_zero]
      simp
    · rw [h1, handWarnings_one]
      simp
  · intro hg
    rw [hiff]
    exact Or.inr hg

theorem C1_evidence_trigger_witness :
    evidence_required (process_frame [] [] [] 640).warnings
        (process_frame [] [] [] 640).gadgets = true ∧
    evidence_required (process_frame [] [⟨[]⟩] [] 640).warnings
        (process_frame [] [⟨[]⟩] [] 640).gadgets = true ∧
    evidence_required (process_frame [] [] [⟨"laptop", 1, ⟨0, 0, 1, 1⟩⟩] 640).warnings
        (process_frame [] [] [⟨"laptop", 1, ⟨0, 0, 1, 1⟩⟩] 640).gadgets = true :=
  ⟨(C1_evidence_trigger [] [] [] 640).2.2.2.1 (by decide),
    (C1_evidence_trigger [] [⟨[]⟩] [] 640).2.2.2.2.1 (Or.inr rfl),
    (C1_evidence_trigger [] [] [⟨"laptop", 1, ⟨0, 0, 1, 1⟩⟩] 640).2.2.2.2.2 (by decide)⟩

/-- C8: a frame with head looking forward, exactly two hands and no
gadgets produces an empty warnings list and no evidence requirement;
and the compliance verdict holds iff exactly those three conditions. -/
theorem C8_compliance (faces : List FaceLandmarkSet)
    (hands : List HandLandmarkSet) (boxes : List Detection) (w : ℕ) :
    ((process_frame faces hands boxes w).head_status = "Looking Forward" →
      (process_frame faces hands boxes w).hand_count = 2 →
      (process_frame faces hands boxes w).gadgets = [] →
      (process_frame faces hands boxes w).warnings = [] ∧
        evidence_required (process_frame faces hands boxes w).warnings
          (process_frame faces hands boxes w).gadgets = false) ∧
    (compliant (process_frame faces hands boxes w).head_status
        (process_frame faces hands boxes w).hand_count
        (process_frame faces hands boxes w).gadgets = true ↔
      ((process_frame faces hands boxes w).head_status = "Looking Forward" ∧
        (process_frame faces hands boxes w).hand_count = 2 ∧
        (process_frame faces hands boxes w).gadgets = [])) := by
  constructor
  · intro hh hc hg
    rw [process_frame_head] at hh
    rw [process_frame_hand] at hc
    rw [process_frame_gadgets] at hg
    have hw : (process_frame faces hands boxes w).warnings = [] := by
      rw [process_frame_warnings, hh, hc, hg, headWarnings_forward]
      rfl
    refine ⟨hw, ?_⟩
    rw [hw, process_frame_gadgets, hg]
    rfl
  · constructor
    · intro h
      simp only [compliant, Bool.and_eq_true, beq_iff_eq, List.isEmpty_iff] at h
      exact ⟨h.1.1, h.1.2, h.2⟩
    · rintro ⟨h1, h2, h3⟩
      simp [compliant, h1, h2, h3]

theorem C8_compliance_witness :
    (process_frame [faceAt (320/640)] [⟨[]⟩, ⟨[]⟩] [] 640).warnings = [] ∧
    evidence_required (process_frame [faceAt (320/640)] [⟨[]⟩, ⟨[]⟩] [] 640).warnings
      (process_frame [faceAt (320/640)] [⟨[]⟩, ⟨[]⟩] [] 640).gadgets = false :=
  (C8_compliance [faceAt (320/640)] [⟨[]⟩, ⟨[]⟩] [] 640).1
    (by rw [process_frame_head, headStatusOf_singleton]; exact headTurn_640_320)
    rfl rfl

/-- C5: the gadget set never repeats a canonical name, even for
overlapping detections of the same item, and a label matching no
catalog key (neither lowercase-substring nor exact, e.g. "cellphone
case") contributes no gadget entry. -/
theorem C5_gadget_set_invariant (boxes : List Detection) :
    (detect_gadget boxes).Nodup ∧
    (∀ b : Detection, b ∈ boxes →
      (∀ kv ∈ prohibited_items,
        strContains (strLower b.label) kv.1 = false ∧ (kv.1 == b.label) = false) →
      detectionGadgets b.label = []) ∧
    detect_gadget [⟨"cell phone", 1, ⟨0, 0, 1, 1⟩⟩, ⟨"cellphone case", 1, ⟨0, 0, 1, 1⟩⟩] =
      ["Mobile Phone"] := by
  refine ⟨pyListSet_nodup _, ?_, by decide⟩
  intro b _ hnone
  have hs : prohibited_items.find? (fun kv => strContains (strLower b.label) kv.1) = none := by
    rw [List.find?_eq_none]
    intro kv hkv
    simp [(hnone kv hkv).1]
  have he : prohibited_items.find? (fun kv => kv.1 == b.label) = none := by
    rw [List.find?_eq_none]
    intro kv hkv
    simp [(hnone kv hkv).2]
  unfold detectionGadgets substrMatch exactMatch
  rw [hs, he]
  rfl

theorem C5_gadget_set_invariant_witness :
    detectionGadgets "cellphone case" = [] :=
  (C5_gadget_set_invariant [⟨"cellphone case", 1, ⟨0, 0, 1, 1⟩⟩]).2.1
    ⟨"cellphone case", 1, ⟨0, 0, 1, 1⟩⟩ (by simp) (by decide)

/-- C7: hand_count = 0 puts exactly the no-hands warning (not the
one-hand warning) in the warnings, hand_count = 1 the reverse, any
count of two or more puts neither, and the reported hand_count is the
unclamped number of detected hands. -/
theorem C7_hand_count_policy (faces : List FaceLandmarkSet)
    (hands : List HandLandmarkSet) (boxes : List Detection) (w : ℕ) :
    ((process_frame faces hands boxes w).hand_count = hands.length) ∧
    (hands.length = 0 →
      noHandsMsg ∈ (process_frame faces hands boxes w).warnings ∧
        oneHandMsg ∉ (process_frame faces hands boxes w).warnings) ∧
    (hands.length = 1 →
      oneHandMsg ∈ (process_frame faces hands boxes w).warnings ∧
        noHandsMsg ∉ (process_frame faces hands boxes w).warnings) ∧
    (2 ≤ hands.length →
      noHandsMsg ∉ (process_frame faces hands boxes w).warnings ∧
        oneHandMsg ∉ (process_frame faces hands boxes w).warnings) := by
  refine ⟨process_frame_hand faces hands boxes w, ?_, ?_, ?_⟩
  · intro hn
    rw [process_frame_warnings, hn, handWarnings_zero]
    constructor
    · simp
    · intro h
      simp only [List.mem_append] at h
      rcases h with (h | h) | h
      · exact msg_not_in_head _ _ (by refine ⟨by decide, by decide, by decide⟩) h
      · rw [List.mem_singleton] at h
        exact absurd h (by decide)
      · exact msg_not_in_gadget boxes _
          (fun kv hkv => (catalog_gadgetWarning_ne_hand kv hkv).2) h
  · intro hn
    rw [process_frame_warnings, hn, handWarnings_one]
    constructor
    · simp
    · intro h
      simp only [List.mem_append] at h
      rcases h with (h | h) | h
      · exact msg_not_in_head _ _ (by refine ⟨by decide, by decide, by decide⟩) h
      · rw [List.mem_singleton] at h
        exact absurd h (by decide)
      · exact msg_not_in_gadget boxes _
          (fun kv hkv => (catalog_gadgetWarning_ne_hand kv hkv).1) h
  · intro hn
    rw [process_frame_warnings, handWarnings_two_le _ hn]
    constructor
    · intro h
      simp only [List.mem_append, List.not_mem_nil] at h
      rcases h with (h | h) | h
      · exact msg_not_in_head _ _ (by refine ⟨by decide, by decide, by decide⟩) h
      · exact h
      · exact msg_not_in_gadget boxes _
          (fun kv hkv => (catalog_gadgetWarning_ne_hand kv hkv).1) h
    · intro h
      simp only [List.mem_append, List.not_mem_nil] at h
      rcases h with (h | h) | h
      · exact msg_not_in_head _ _ (by refine ⟨by decide, by decide, by decide⟩) h
      · exact h
      · exact msg_not_in_gadget boxes _
          (fun kv hkv => (catalog_gadgetWarning_ne_hand kv hkv).2) h

theorem C7_hand_count_policy_witness :
    (noHandsMsg ∈ (process_frame [] [] [] 640).warnings) ∧
    (oneHandMsg ∈ (process_frame [] [⟨[]⟩] [] 640).warnings) ∧
    ((process_frame [] [⟨[]⟩, ⟨[]⟩, ⟨[]⟩, ⟨[]⟩, ⟨[]⟩] [] 640).hand_count = 5) ∧
    (noHandsMsg ∉ (process_frame [] [⟨[]⟩, ⟨[]⟩, ⟨[]⟩, ⟨[]⟩, ⟨[]⟩] [] 640).warnings) :=
  ⟨((C7_hand_count_policy [] [] [] 640).2.1 rfl).1,
    ((C7_hand_count_policy [] [⟨[]⟩] [] 640).2.2.1 rfl).1,
    (C7_hand_count_policy [] [⟨[]⟩, ⟨[]⟩, ⟨[]⟩, ⟨[]⟩, ⟨[]⟩] [] 640).1,
    ((C7_hand_count_policy [] [⟨[]⟩, ⟨[]⟩, ⟨[]⟩, ⟨[]⟩, ⟨[]⟩] [] 640).2.2.2
      (by norm_num)).1⟩

/-- C4: per detection the Gadget Filter emits the display name of the
first catalog key (in fixed enumeration order) occurring as a substring
of the lowercased label, stopping at the first match; the separate
exact-raw-label path re-emits the same canonical name and is absorbed
by the final dedup; confidence and bounding box never affect the
result. -/
theorem C4_gadget_filter_paths (boxes boxes' : List Detection)
    (hlab : boxes.map Detection.label = boxes'.map Detection.label) :
    detect_gadget boxes = detect_gadget boxes' ∧
    detect_gadget boxes = pyListSet (boxes.flatMap (fun b => substrMatch b.label)) ∧
    (∀ label d : String, substrMatch label = [d] →
      ∃ l1 kv l2, prohibited_items = l1 ++ kv :: l2 ∧
        (kv : String × String).2 = d ∧
        strContains (strLower label) kv.1 = true ∧
        ∀ kv' ∈ l1, strContains (strLower label) kv'.1 = false) ∧
    (∀ label : String, ∀ kv ∈ prohibited_items, kv.1 = label →
      substrMatch label = [kv.2] ∧ exactMatch label = [kv.2]) := by
  refine ⟨?_, detect_gadget_substr_only boxes, ?_, ?_⟩
  · rw [detect_gadget, detect_gadget, flatMap_label, flatMap_label, hlab]
  · intro label d h
    unfold substrMatch at h
    cases hf : prohibited_items.find? (fun kv => strContains (strLower label) kv.1) with
    | none =>
      rw [hf] at h
      exact absurd h (by simp [emitFound])
    | some kv =>
      rw [hf] at h
      have hd : kv.2 = d := by
        simpa [emitFound] using h
      obtain ⟨hp, l1, l2, hcat, hbefore⟩ := List.find?_eq_some.mp hf
      refine ⟨l1, kv, l2, hcat, hd, hp, ?_⟩
      intro kv' hkv'
      have := hbefore kv' hkv'
      simpa using this
  · intro label kv hkv hkeq
    subst hkeq
    constructor
    · unfold substrMatch
      rw [catalog_substr_self kv hkv]
      rfl
    · unfold exactMatch
      rw [catalog_exact_self kv hkv]
      rfl

theorem C4_gadget_filter_paths_witness :
    detect_gadget [⟨"cell phone", 1, ⟨0, 0, 1, 1⟩⟩] =
      detect_gadget [⟨"cell phone", 0, ⟨5, 5, 9, 9⟩⟩] ∧
    (substrMatch "tv" = [("tv", "TV/Monitor").2] ∧
      exactMatch "tv" = [("tv", "TV/Monitor").2]) :=
  ⟨(C4_gadget_filter_paths [⟨"cell phone", 1, ⟨0, 0, 1, 1⟩⟩]
      [⟨"cell phone", 0, ⟨5, 5, 9, 9⟩⟩] rfl).1,
    (C4_gadget_filter_paths [] [] rfl).2.2.2 "tv" ("tv", "TV/Monitor")
      (by decide) rfl⟩

end ProctorVision
